import Mathlib

/-
Verification development for the Typst.Net rust_core crate.

The embedding models the two source files that carry the logic under
verification:

* `world.rs` — the virtual file store (`SystemWorld`), its per-identity
  `FileSlot`s and the generic fingerprinted cache cell `SlotCell`.
* `lib.rs` — the C-ABI boundary layer (`create_compiler`, `set_sys_inputs`,
  `compile`, `free_compile_result`, `query`).

Modelling conventions:

* Machine bytes are `List Nat`; a decoded `&str` is represented by the very
  byte list it views (as in Rust, `str::from_utf8` returns a view of the
  same bytes), validated by a full UTF-8 validator.
* `Result<T, FileError>` is the inductive `FileResult`.
* Rust heap identity (needed to state "the same underlying object" /
  "a freshly allocated object") is modelled by an allocation tag `ident`
  carried by `Source` and `BytesObj`; `Source::new` / `Bytes::new` receive a
  fresh tag, `Source::replace` keeps the tag of the object it mutates.
* `typst::utils::hash128` over the raw read result is idealized as an
  injective hash: the fingerprint field stores the hashed value itself,
  wrapped in `Option` (`none` models the initial fingerprint `0`, which no
  real read produces).
* Filesystem access (`system_path(..).and_then(read)`) is passed to each
  operation as an explicit `FileResult (List Nat)` value; every operation
  additionally returns a `Bool` that is `true` exactly when the code would
  have executed the path-resolution-plus-read expression.
-/

/-- Error kinds of `typst::diag::FileError` reachable from `world.rs`:
`AccessDenied` (path resolution), `IsDirectory` and wrapped I/O errors
(`read`), invalid UTF-8 (`decode_utf8`), package preparation failures. -/
inductive FileError where
  | accessDenied
  | isDirectory
  | notFound (path : String)
  | ioError (path : String) (kind : Nat)
  | invalidUtf8
  | packageError (msg : String)
deriving DecidableEq, Repr

/-- `FileResult<T> = Result<T, FileError>`. -/
inductive FileResult (α : Type) where
  | ok (value : α)
  | error (err : FileError)
deriving DecidableEq, Repr

/-- `Result::and_then`. -/
def FileResult.and_then : FileResult α → (α → FileResult β) → FileResult β
  | .ok v, f => f v
  | .error e, _ => .error e

/-- `Result::ok` (drops the error into `None`). -/
def FileResult.toOption : FileResult α → Option α
  | .ok v => some v
  | .error _ => none

/-- Is `b` a UTF-8 continuation byte (`0x80..=0xBF`)? -/
def isUtf8Cont (b : Nat) : Bool := 0x80 ≤ b && b ≤ 0xBF

/-- Full UTF-8 validity check, the semantics of `std::str::from_utf8`
succeeding: rejects overlong encodings, surrogates and code points above
`0x10FFFF` via the standard lead-byte/continuation ranges. -/
def validUtf8 : List Nat → Bool
  | [] => true
  | b :: rest =>
    if b ≤ 0x7F then validUtf8 rest
    else if 0xC2 ≤ b && b ≤ 0xDF then
      match rest with
      | b1 :: rest2 => isUtf8Cont b1 && validUtf8 rest2
      | [] => false
    else if 0xE0 ≤ b && b ≤ 0xEF then
      match rest with
      | b1 :: b2 :: rest2 =>
        (if b = 0xE0 then 0xA0 ≤ b1 && b1 ≤ 0xBF
         else if b = 0xED then 0x80 ≤ b1 && b1 ≤ 0x9F
         else isUtf8Cont b1) && isUtf8Cont b2 && validUtf8 rest2
      | _ => false
    else if 0xF0 ≤ b && b ≤ 0xF4 then
      match rest with
      | b1 :: b2 :: b3 :: rest2 =>
        (if b = 0xF0 then 0x90 ≤ b1 && b1 ≤ 0xBF
         else if b = 0xF4 then 0x80 ≤ b1 && b1 ≤ 0x8F
         else isUtf8Cont b1) && isUtf8Cont b2 && isUtf8Cont b3 && validUtf8 rest2
      | _ => false
    else false

/-- `buf.strip_prefix(b"\xef\xbb\xbf").unwrap_or(buf)` from `decode_utf8`. -/
def stripBom (buf : List Nat) : List Nat :=
  match buf with
  | 0xEF :: 0xBB :: 0xBF :: rest => rest
  | _ => buf

/-- `decode_utf8` from `world.rs`: strip an optional BOM, then decode as
UTF-8; the resulting `&str` views the same (stripped) bytes. -/
def decode_utf8 (buf : List Nat) : FileResult (List Nat) :=
  let stripped := stripBom buf
  if validUtf8 stripped then .ok stripped else .error .invalidUtf8

/-- `typst::syntax::FileId`: a virtual path, optionally a package spec, and
whether it was created with `new_fake` (the in-memory main document). -/
structure FileId where
  vpath : String
  pkg : Option String
  fake : Bool
deriving DecidableEq, Repr

/-- `typst::syntax::Source`, restricted to what `world.rs` manipulates: its
file id and its text. `ident` is the allocation tag modelling Rust heap
identity (see the header comment). -/
structure Source where
  ident : Nat
  id : FileId
  text : List Nat
deriving DecidableEq, Repr

/-- `Source::new` — allocates a fresh object carrying the tag `ident`. -/
def Source.new (ident : Nat) (id : FileId) (text : List Nat) : Source :=
  { ident := ident, id := id, text := text }

/-- `Source::replace` — mutates the existing object in place: the
allocation tag is preserved, only the text changes. -/
def Source.replace (s : Source) (text : List Nat) : Source :=
  { s with text := text }

/-- `typst::foundations::Bytes` with an allocation tag for heap identity. -/
structure BytesObj where
  ident : Nat
  data : List Nat
deriving DecidableEq, Repr

/-- `Bytes::new` — allocates a fresh buffer carrying the tag `ident`. -/
def BytesObj.new (ident : Nat) (data : List Nat) : BytesObj :=
  { ident := ident, data := data }

/-- `SlotCell<T>` from `world.rs`: the last produced value (if any), the
fingerprint of the last raw read (idealized, `none` = the initial `0`), and
the accessed-this-pass flag. -/
structure SlotCell (α : Type) where
  data : Option (FileResult α)
  fingerprint : Option (FileResult (List Nat))
  accessed : Bool
deriving DecidableEq, Repr

/-- `SlotCell::new`. -/
def SlotCell.new : SlotCell α :=
  { data := none, fingerprint := none, accessed := false }

/-- `SlotCell::init`: pre-populate with a successful value and mark the
cell accessed; the fingerprint is left at its initial value. -/
def SlotCell.init (c : SlotCell α) (data : α) : SlotCell α :=
  { c with data := some (.ok data), accessed := true }

/-- Tail of `SlotCell::get_or_init` after the fingerprint has been replaced
and found different (or no cached value existed): take the previous `Ok`
value, run the raw result through the rebuild closure, store and return the
outcome. -/
def SlotCell.rebuildWith (c : SlotCell α) (readResult : FileResult (List Nat))
    (f : List Nat → Option α → FileResult α) :
    FileResult α × SlotCell α × Bool :=
  let prev := c.data.bind FileResult.toOption
  let value := readResult.and_then (fun data => f data prev)
  (value, { c with data := some value }, true)

/-- Middle of `SlotCell::get_or_init`: the read has been performed
(`readResult` is `path().and_then(read)`); replace the fingerprint with the
hash of the read, short-circuit if it is unchanged and a value is cached,
otherwise rebuild. -/
def SlotCell.refresh (c : SlotCell α) (readResult : FileResult (List Nat))
    (f : List Nat → Option α → FileResult α) :
    FileResult α × SlotCell α × Bool :=
  let fp : Option (FileResult (List Nat)) := some readResult
  if c.fingerprint = fp then
    match c.data with
    | some d => (d, { c with fingerprint := fp }, true)
    | none => SlotCell.rebuildWith { c with fingerprint := fp } readResult f
  else SlotCell.rebuildWith { c with fingerprint := fp } readResult f

/-- `SlotCell::get_or_init` from `world.rs`. The returned `Bool` is `true`
exactly when the code executes `path().and_then(|p| read(&p))`, i.e. when
the accessed-this-pass short-circuit does not fire. -/
def SlotCell.get_or_init (c : SlotCell α) (readResult : FileResult (List Nat))
    (f : List Nat → Option α → FileResult α) :
    FileResult α × SlotCell α × Bool :=
  if c.accessed then
    match c.data with
    | some d => (d, { c with accessed := true }, false)
    | none => SlotCell.refresh { c with accessed := true } readResult f
  else SlotCell.refresh { c with accessed := true } readResult f

/-- `FileSlot` from `world.rs`. The Rust fields are named `source` and
`file`; Lean reserves those names for the methods below, so the fields are
`sourceCell` and `fileCell`. -/
structure FileSlot where
  id : FileId
  sourceCell : SlotCell Source
  fileCell : SlotCell BytesObj
deriving DecidableEq, Repr

/-- `FileSlot::new`. -/
def FileSlot.new (id : FileId) : FileSlot :=
  { id := id, sourceCell := SlotCell.new, fileCell := SlotCell.new }

/-- `FileSlot::source`: decode the bytes, then either mutate the previous
`Source` in place (`prev.replace(text)`) or construct a brand-new one
(`Source::new`) when no previous decoded value exists. `fresh` is the
allocation tag a new `Source` would receive. -/
def FileSlot.source (s : FileSlot) (readResult : FileResult (List Nat)) (fresh : Nat) :
    FileResult Source × FileSlot × Bool :=
  let r := s.sourceCell.get_or_init readResult (fun data prev =>
    (decode_utf8 data).and_then (fun text =>
      match prev with
      | some p => .ok (p.replace text)
      | none => .ok (Source.new fresh s.id text)))
  (r.1, { s with sourceCell := r.2.1 }, r.2.2)

/-- `FileSlot::file`: always wraps the raw bytes in a freshly allocated
buffer (`Bytes::new(data)`), ignoring any previous value. -/
def FileSlot.file (s : FileSlot) (readResult : FileResult (List Nat)) (fresh : Nat) :
    FileResult BytesObj × FileSlot × Bool :=
  let r := s.fileCell.get_or_init readResult (fun data _ => .ok (BytesObj.new fresh data))
  (r.1, { s with fileCell := r.2.1 }, r.2.2)

/-- The input dictionary (`typst::foundations::Dict`) restricted to
string-valued entries, which is all the boundary layer needs. -/
def Dict : Type := List (String × String)

/-- `chrono::NaiveDate` components as read back through `Datelike`. -/
structure NaiveDate where
  year : Int
  month : Nat
  day : Nat
deriving DecidableEq, Repr

/-- `chrono::DateTime<Local>` abstracted to the two observations `today`
makes of it: the local calendar date (`now.naive_local()` read through
`Datelike`) and, for each hour offset, the date of `now.naive_utc() +
Duration::hours(o)`. -/
structure DateTimeL where
  localDate : NaiveDate
  utcPlusHours : Int → NaiveDate

/-- `SystemWorld` from `world.rs`, restricted to the fields the claims
touch: the project root, the main file id, the library inputs, the slot
map (an association list under one lock), and the `OnceLock` datetime.
`nextId` is the allocation-tag supply of the identity model. -/
structure SystemWorld where
  root : String
  main : FileId
  inputs : Dict
  slots : List (FileId × FileSlot)
  nextId : Nat
  now : Option DateTimeL

/-- The id `FileId::new_fake(VirtualPath::new("<main>"))`. -/
def mainFileId : FileId := { vpath := "<main>", pkg := none, fake := true }

/-- `SystemWorld::new`: builds the slot map holding only the main slot,
whose decoded-text cell is pre-initialized with the in-memory main content
via `SlotCell::init`; the `OnceLock` starts empty. Font search and package
storage are external collaborators and are not modelled. -/
def SystemWorld.new (root : String) (inputs : Dict) (mainContent : List Nat) : SystemWorld :=
  let slot0 := FileSlot.new mainFileId
  let slot := { slot0 with sourceCell := slot0.sourceCell.init (Source.new 0 mainFileId mainContent) }
  { root := root, main := mainFileId, inputs := inputs,
    slots := [(mainFileId, slot)], nextId := 1, now := none }

/-- `HashMap::entry(id)` lookup half: find the slot for `id`. -/
def lookupSlot : List (FileId × FileSlot) → FileId → Option FileSlot
  | [], _ => none
  | (k, v) :: rest, id => if k = id then some v else lookupSlot rest id

/-- `HashMap::entry(id).or_insert_with(..)` write-back half: store the
updated slot under `id`, appending it when absent. -/
def updateSlot : List (FileId × FileSlot) → FileId → FileSlot → List (FileId × FileSlot)
  | [], id, s => [(id, s)]
  | (k, v) :: rest, id, s => if k = id then (id, s) :: rest else (k, v) :: updateSlot rest id s

/-- `World::source` for `SystemWorld`: dispatch to the slot (inserting a
fresh one when absent) and run `FileSlot::source`. The `Bool` reports
whether the filesystem (path resolution or read) was touched. -/
def SystemWorld.source (w : SystemWorld) (id : FileId) (readResult : FileResult (List Nat)) :
    FileResult Source × SystemWorld × Bool :=
  let slot := (lookupSlot w.slots id).getD (FileSlot.new id)
  let r := slot.source readResult w.nextId
  (r.1, { w with slots := updateSlot w.slots id r.2.1, nextId := w.nextId + 1 }, r.2.2)

/-- `World::file` for `SystemWorld`, analogous to `SystemWorld.source`. -/
def SystemWorld.file (w : SystemWorld) (id : FileId) (readResult : FileResult (List Nat)) :
    FileResult BytesObj × SystemWorld × Bool :=
  let slot := (lookupSlot w.slots id).getD (FileSlot.new id)
  let r := slot.file readResult w.nextId
  (r.1, { w with slots := updateSlot w.slots id r.2.1, nextId := w.nextId + 1 }, r.2.2)

/-- `u32::try_into::<u8>().ok()` on a month/day component. -/
def tryIntoU8 (n : Nat) : Option Nat := if n ≤ 255 then some n else none

/-- `typst::foundations::Datetime::from_ymd` (external library): `Some`
exactly when the components form a representable calendar date; the
representability test is abstracted to the component ranges. -/
def datetime_from_ymd (y : Int) (m d : Nat) : Option NaiveDate :=
  if 1 ≤ m && m ≤ 12 && 1 ≤ d && d ≤ 31 then some { year := y, month := m, day := d } else none

/-- The naive datetime `today` derives from the captured instant: the
local date when `offset` is `None`, otherwise UTC shifted by `offset`
hours. -/
def todayNaive (dt : DateTimeL) (offset : Option Int) : NaiveDate :=
  match offset with
  | none => dt.localDate
  | some o => dt.utcPlusHours o

/-- `World::today` from `world.rs`: `self.now.get_or_init(Local::now)`
captures the wall clock on first call only (`clock` stands for what
`Local::now()` would return at this instant); the date is derived from the
captured instant, and the `?` on each `try_into().ok()` propagates `None`. -/
def SystemWorld.today (w : SystemWorld) (offset : Option Int) (clock : DateTimeL) :
    Option NaiveDate × SystemWorld :=
  let now := w.now.getD clock
  let naive := todayNaive now offset
  let result :=
    match tryIntoU8 naive.month with
    | none => none
    | some m =>
      match tryIntoU8 naive.day with
      | none => none
      | some d => datetime_from_ymd naive.year m d
  (result, { w with now := some now })

/-
The C-ABI boundary layer from `lib.rs`. Raw pointers that may be null are
modelled as `Option`; a C string is a Lean `String`. `serde_json::from_str`
is external, so each boundary model takes its outcome (`Option Dict`,
`none` = parse error) as a parameter.
-/

/-- A `Buffer { ptr, len }`; `ptr := none` models a null pointer. -/
structure BufferC where
  ptr : Option (List Nat)
deriving DecidableEq, Repr

/-- A `Warning { message }`; `message := none` models a null pointer. -/
structure WarningC where
  message : Option String
deriving DecidableEq, Repr

/-- `CompileResult` from `lib.rs`: possibly-null arrays with explicit
lengths and a possibly-null error string. -/
structure CompileResultC where
  buffers : Option (List BufferC)
  buffers_len : Nat
  warnings : Option (List WarningC)
  warnings_len : Nat
  error : Option String
deriving DecidableEq, Repr

/-- `CompileResult::default()`: all pointers null, all lengths zero. -/
def CompileResultC.default : CompileResultC :=
  { buffers := none, buffers_len := 0, warnings := none, warnings_len := 0, error := none }

/-- `Result<T, EcoString>` as returned by `compile_inner`. -/
inductive StrResult (α : Type) where
  | ok (value : α)
  | error (err : String)
deriving DecidableEq, Repr

/-- `create_compiler` from `lib.rs`, at the level of its input-dictionary
handling: `parsed` is the outcome of `serde_json::from_str(sys_inputs_str)`
and `unwrap_or_default()` degrades a parse failure to the empty dictionary;
`SystemWorld::new` is then called with those inputs (its `Ok` is
unconditional in the source, so a handle is always produced). -/
def create_compiler (root : String) (parsed : Option Dict) (mainContent : List Nat) :
    Option SystemWorld :=
  match SystemWorld.new root (parsed.getD []) mainContent with
  | w => some w

/-- `set_sys_inputs` from `lib.rs`: null compiler fails; a JSON parse
failure returns `false` before anything is applied; otherwise the result of
`SystemWorld::set_inputs` (repo code not present under src/, abstracted by
`applyOk` — per spec §4.1 it replaces the inputs and can fail validation)
is returned. -/
def set_sys_inputs (compilerNull : Bool) (parsed : Option Dict) (applyOk : Bool) : Bool :=
  if compilerNull then false
  else
    match parsed with
    | none => false
    | some _ => applyOk

/-- `compile` from `lib.rs`: marshal `compile_inner`'s outcome. On success
the buffer and warning vectors become non-null arrays with their lengths
and the error is null; on failure the result is `default()` with only the
error string set. -/
def compile_ffi (inner : StrResult (List (List Nat) × List String)) : CompileResultC :=
  match inner with
  | .ok (bufs, warns) =>
    { buffers := some (bufs.map (fun b => { ptr := some b })),
      buffers_len := bufs.length,
      warnings := some (warns.map (fun w => { message := some w })),
      warnings_len := warns.length,
      error := none }
  | .error e => { CompileResultC.default with error := some e }

/-- Deallocation trace of one `free_compile_result` call: how many null
pointers were handed to `Vec::from_raw_parts`/`CString::from_raw` (each
such call is undefined behaviour), and which sub-allocations were freed. -/
structure FreeTrace where
  nullDerefs : Nat
  freedBufferArray : Bool
  freedBuffers : Nat
  freedWarningArray : Bool
  freedWarningMessages : Nat
  freedError : Bool
deriving DecidableEq, Repr

/-- The all-zero trace (nothing freed yet). -/
def FreeTrace.empty : FreeTrace :=
  { nullDerefs := 0, freedBufferArray := false, freedBuffers := 0,
    freedWarningArray := false, freedWarningMessages := 0, freedError := false }

/-- `free_compile_result` from `lib.rs`: the buffers array, the warnings
array and the error string are each guarded by a null check, but every
buffer pointer and every warning message inside a non-null array is freed
unconditionally. -/
def free_compile_result (r : CompileResultC) : FreeTrace :=
  let t := FreeTrace.empty
  let t :=
    match r.buffers with
    | none => t
    | some bs =>
      bs.foldl (fun t b =>
        match b.ptr with
        | none => { t with nullDerefs := t.nullDerefs + 1 }
        | some _ => { t with freedBuffers := t.freedBuffers + 1 })
        { t with freedBufferArray := true }
  let t :=
    match r.warnings with
    | none => t
    | some ws =>
      ws.foldl (fun t w =>
        match w.message with
        | none => { t with nullDerefs := t.nullDerefs + 1 }
        | some _ => { t with freedWarningMessages := t.freedWarningMessages + 1 })
        { t with freedWarningArray := true }
  match r.error with
  | none => t
  | some _ => { t with freedError := true }

/-- `query` from `lib.rs`: marshal `query::query`'s outcome (the query
engine itself is an external collaborator) into the returned C string; the
error path formats a message instead of returning null. -/
def query_ffi (result : StrResult String) : Option String :=
  match result with
  | .ok r => some r
  | .error e => some ("Error during query: " ++ e)

/-- Claim C2: within a single pass — the cell's accessed-this-pass flag is
set and a value is cached — re-resolving the same slot cell returns the
identical cached value, leaves the cell unchanged, and performs no path
resolution and no disk read (third component `false`), even if the
underlying file was mutated in between: the read outcome and the rebuild
closure are universally quantified, so the result cannot depend on them. -/
theorem pass_short_circuit_returns_cached {α : Type} (c : SlotCell α) (v : FileResult α)
    (readResult : FileResult (List Nat)) (f : List Nat → Option α → FileResult α)
    (hacc : c.accessed = true) (hdata : c.data = some v) :
    c.get_or_init readResult f = (v, c, false) := by
  cases c with
  | mk data fingerprint accessed =>
    simp only [SlotCell.accessed] at hacc
    simp only [SlotCell.data] at hdata
    subst hacc
    subst hdata
    simp [SlotCell.get_or_init]

/-- Witness for C2 at a concrete cached cell, mutated bytes and a rebuild
closure that would error if it were ever invoked. -/
theorem pass_short_circuit_returns_cached_witness :
    ({ data := some (.ok (Source.new 4 mainFileId [0x61])), fingerprint := none,
       accessed := true } : SlotCell Source).get_or_init (.ok [0x62])
        (fun _ _ => .error .accessDenied)
      = (.ok (Source.new 4 mainFileId [0x61]),
         { data := some (.ok (Source.new 4 mainFileId [0x61])), fingerprint := none,
           accessed := true }, false) :=
  pass_short_circuit_returns_cached _ _ _ _ rfl rfl

/-- Claim C4: resolving the main document's identity through `source` never
touches the filesystem — the touched-filesystem flag is `false` and the
returned value is the pre-initialized in-memory source, for every project
root (including invalid ones), every input dictionary, every main content
and every possible read outcome. -/
theorem main_source_never_touches_fs (root : String) (inputs : Dict) (mainContent : List Nat)
    (readResult : FileResult (List Nat)) :
    ((SystemWorld.new root inputs mainContent).source
        (SystemWorld.new root inputs mainContent).main readResult).1
      = .ok (Source.new 0 mainFileId mainContent)
    ∧ ((SystemWorld.new root inputs mainContent).source
        (SystemWorld.new root inputs mainContent).main readResult).2.2 = false := by
  constructor <;> rfl

/-- Claim C5 counterexample: `set_sys_inputs` does not degrade unparsable
JSON to an empty dictionary — with a valid compiler handle and an input
mutator that would succeed, a JSON parse failure (`none`) makes the call
fail (`false`), whereas the empty dictionary (what `"{}"` parses to) makes
it succeed (`true`). -/
theorem set_sys_inputs_invalid_json_fails_cx :
    set_sys_inputs false none true = false ∧ set_sys_inputs false (some []) true = true :=
  ⟨rfl, rfl⟩

/-- Claim C5 amended: `create_compiler` degrades unparsable JSON to the
empty input dictionary and still constructs the handle, but `set_sys_inputs`
instead fails the call (returns `false`) on unparsable JSON. -/
theorem invalid_json_create_vs_set_inputs (root : String) (mainContent : List Nat)
    (applyOk : Bool) :
    create_compiler root none mainContent = some (SystemWorld.new root [] mainContent)
    ∧ set_sys_inputs false none applyOk = false :=
  ⟨rfl, rfl⟩

/-- Claim C6: a failing compile call returns a `CompileResult` that is the
default shape with only the error set — null buffer array, buffer count
zero, null warning array, warning count zero, and a non-null error message —
while a successful compile call returns a null error field. -/
theorem compile_result_error_path_shape (e : String) (bufs : List (List Nat))
    (warns : List String) :
    compile_ffi (.error e)
      = { buffers := none, buffers_len := 0, warnings := none, warnings_len := 0,
          error := some e }
    ∧ (compile_ffi (.ok (bufs, warns))).error = none :=
  ⟨rfl, rfl⟩

/-- Claim C9: `query` never returns a null pointer — both the success path
and the error path produce an owned string. -/
theorem query_never_null (r : StrResult String) : (query_ffi r).isSome = true := by
  cases r <;> rfl

/-- Claim C1: on a re-resolution that reaches the refresh path (the
accessed-this-pass flag is clear, i.e. a new pass — the in-pass
short-circuit is Claim C2's subject), if the underlying bytes changed and
still decode, `FileSlot.source` returns the very object `v1` previously
cached with only its text replaced in place (allocation tag preserved; the
fresh tag `freshS` is not used), while `FileSlot.file` for the same change
returns a freshly allocated buffer whose tag is the allocator's new tag,
distinct from the previous buffer's. -/
theorem source_reuses_object_on_content_change
    (slot : FileSlot) (v1 : Source) (b1 : BytesObj) (oldBytes newBytes t : List Nat)
    (freshS freshF : Nat)
    (hsrc : slot.sourceCell
      = { data := some (.ok v1), fingerprint := some (.ok oldBytes), accessed := false })
    (hfile : slot.fileCell
      = { data := some (.ok b1), fingerprint := some (.ok oldBytes), accessed := false })
    (hchanged : newBytes ≠ oldBytes)
    (hdecode : decode_utf8 newBytes = .ok t)
    (hfresh : freshF ≠ b1.ident) :
    (slot.source (.ok newBytes) freshS).1 = .ok (v1.replace t)
    ∧ (v1.replace t).ident = v1.ident
    ∧ (slot.file (.ok newBytes) freshF).1 = .ok (BytesObj.new freshF newBytes)
    ∧ (BytesObj.new freshF newBytes).ident ≠ b1.ident := by
  refine ⟨?_, rfl, ?_, hfresh⟩
  · simp [FileSlot.source, hsrc, SlotCell.get_or_init, SlotCell.refresh,
      SlotCell.rebuildWith, FileResult.and_then, FileResult.toOption, hdecode,
      Source.replace, Ne.symm hchanged]
  · simp [FileSlot.file, hfile, SlotCell.get_or_init, SlotCell.refresh,
      SlotCell.rebuildWith, FileResult.and_then, FileResult.toOption,
      BytesObj.new, Ne.symm hchanged]

/-- Witness for C1: a slot whose decoded text and raw bytes were `"a"`,
re-resolved after the file became `"b"`. -/
theorem source_reuses_object_on_content_change_witness :
    (({ id := mainFileId,
        sourceCell := { data := some (.ok (Source.new 7 mainFileId [0x61])),
                        fingerprint := some (.ok [0x61]), accessed := false },
        fileCell := { data := some (.ok (BytesObj.new 3 [0x61])),
                      fingerprint := some (.ok [0x61]), accessed := false } } : FileSlot).source
        (.ok [0x62]) 9).1
      = .ok ((Source.new 7 mainFileId [0x61]).replace [0x62])
    ∧ ((Source.new 7 mainFileId [0x61]).replace [0x62]).ident
      = (Source.new 7 mainFileId [0x61]).ident
    ∧ (({ id := mainFileId,
          sourceCell := { data := some (.ok (Source.new 7 mainFileId [0x61])),
                          fingerprint := some (.ok [0x61]), accessed := false },
          fileCell := { data := some (.ok (BytesObj.new 3 [0x61])),
                        fingerprint := some (.ok [0x61]), accessed := false } } : FileSlot).file
          (.ok [0x62]) 9).1
        = .ok (BytesObj.new 9 [0x62])
    ∧ (BytesObj.new 9 [0x62]).ident ≠ (BytesObj.new 3 [0x61]).ident :=
  source_reuses_object_on_content_change _ (Source.new 7 mainFileId [0x61])
    (BytesObj.new 3 [0x61]) [0x61] [0x62] [0x62] 9 9 rfl rfl (by decide) (by decide)
    (by decide)

/-- Claim C3: a read failure is cached under the same fingerprinting rule
as a success. First conjunct: re-resolving (refresh path, new pass) while
the failure cause `e` is unchanged returns the cached error and leaves the
cached value and fingerprint unchanged, for every rebuild closure `f` — the
universal quantification over `f` expresses that the rebuild function is
not invoked. Second conjunct: a failure with a different cause `e2`
replaces the fingerprint and the cached value, exactly as changed content
does. -/
theorem error_cached_and_invalidated_by_cause_change {α : Type}
    (e e2 : FileError) (f : List Nat → Option α → FileResult α)
    (hne : e2 ≠ e) :
    ({ data := some (.error e), fingerprint := some (.error e),
       accessed := false } : SlotCell α).get_or_init (.error e) f
      = (.error e, { data := some (.error e), fingerprint := some (.error e),
                     accessed := true }, true)
    ∧ ({ data := some (.error e), fingerprint := some (.error e),
         accessed := false } : SlotCell α).get_or_init (.error e2) f
      = (.error e2, { data := some (.error e2), fingerprint := some (.error e2),
                      accessed := true }, true) := by
  constructor
  · simp [SlotCell.get_or_init, SlotCell.refresh]
  · simp [SlotCell.get_or_init, SlotCell.refresh, SlotCell.rebuildWith,
      FileResult.and_then, FileResult.toOption, Ne.symm hne]

/-- Witness for C3 at concrete error causes (file missing, then
is-a-directory) and a rebuild closure that would be visible if invoked. -/
theorem error_cached_and_invalidated_witness :
    ({ data := some (.error (.notFound "m")), fingerprint := some (.error (.notFound "m")),
       accessed := false } : SlotCell Source).get_or_init (.error (.notFound "m"))
        (fun _ _ => .error .accessDenied)
      = (.error (.notFound "m"),
         { data := some (.error (.notFound "m")),
           fingerprint := some (.error (.notFound "m")), accessed := true }, true)
    ∧ ({ data := some (.error (.notFound "m")), fingerprint := some (.error (.notFound "m")),
         accessed := false } : SlotCell Source).get_or_init (.error .isDirectory)
        (fun _ _ => .error .accessDenied)
      = (.error .isDirectory,
         { data := some (.error .isDirectory),
           fingerprint := some (.error .isDirectory), accessed := true }, true) :=
  error_cached_and_invalidated_by_cause_change (.notFound "m") .isDirectory
    (fun _ _ => .error .accessDenied) (by decide)

/-- Claim C10: a cached `Ok` source does not survive an intervening read
error. Step 1: a slot holding the decoded value `v1` sees a failing read —
the error is returned and cached, and the previously cached `Ok` value is
discarded. Step 2: a later successful read (refresh path of a new pass, on
the slot exactly as step 1 left it but with the accessed flag cleared)
constructs a brand-new `Source` carrying the allocator's fresh tag, not
`v1`'s tag — the old object is not mutated in place. -/
theorem error_discards_cached_source_identity
    (id : FileId) (v1 : Source) (oldBytes newBytes t : List Nat) (e : FileError)
    (fresh1 fresh2 : Nat)
    (hdecode : decode_utf8 newBytes = .ok t)
    (hfresh : fresh2 ≠ v1.ident) :
    (({ id := id,
        sourceCell := { data := some (.ok v1), fingerprint := some (.ok oldBytes),
                        accessed := false },
        fileCell := SlotCell.new } : FileSlot).source (.error e) fresh1).1 = .error e
    ∧ (({ id := id,
          sourceCell := { data := some (.ok v1), fingerprint := some (.ok oldBytes),
                          accessed := false },
          fileCell := SlotCell.new } : FileSlot).source (.error e) fresh1).2.1
        = { id := id,
            sourceCell := { data := some (.error e), fingerprint := some (.error e),
                            accessed := true },
            fileCell := SlotCell.new }
    ∧ (({ id := id,
          sourceCell := { data := some (.error e), fingerprint := some (.error e),
                          accessed := false },
          fileCell := SlotCell.new } : FileSlot).source (.ok newBytes) fresh2).1
        = .ok (Source.new fresh2 id t)
    ∧ (Source.new fresh2 id t).ident ≠ v1.ident := by
  refine ⟨?_, ?_, ?_, hfresh⟩
  · simp [FileSlot.source, SlotCell.get_or_init, SlotCell.refresh, SlotCell.rebuildWith,
      FileResult.and_then, FileResult.toOption]
  · simp [FileSlot.source, SlotCell.get_or_init, SlotCell.refresh, SlotCell.rebuildWith,
      FileResult.and_then, FileResult.toOption]
  · simp [FileSlot.source, SlotCell.get_or_init, SlotCell.refresh, SlotCell.rebuildWith,
      FileResult.and_then, FileResult.toOption, hdecode, Source.new]

/-- Witness for C10: the slot held `"a"` decoded as object tag 7; the file
goes missing, then reappears as `"b"`; the new source carries tag 9. -/
theorem error_discards_cached_source_identity_witness :
    (({ id := mainFileId,
        sourceCell := { data := some (.ok (Source.new 7 mainFileId [0x61])),
                        fingerprint := some (.ok [0x61]), accessed := false },
        fileCell := SlotCell.new } : FileSlot).source (.error (.notFound "m")) 8).1
      = .error (.notFound "m")
    ∧ (({ id := mainFileId,
          sourceCell := { data := some (.ok (Source.new 7 mainFileId [0x61])),
                          fingerprint := some (.ok [0x61]), accessed := false },
          fileCell := SlotCell.new } : FileSlot).source (.error (.notFound "m")) 8).2.1
        = { id := mainFileId,
            sourceCell := { data := some (.error (.notFound "m")),
                            fingerprint := some (.error (.notFound "m")), accessed := true },
            fileCell := SlotCell.new }
    ∧ (({ id := mainFileId,
          sourceCell := { data := some (.error (.notFound "m")),
                          fingerprint := some (.error (.notFound "m")), accessed := false },
          fileCell := SlotCell.new } : FileSlot).source (.ok [0x62]) 9).1
        = .ok (Source.new 9 mainFileId [0x62])
    ∧ (Source.new 9 mainFileId [0x62]).ident ≠ (Source.new 7 mainFileId [0x61]).ident :=
  error_discards_cached_source_identity mainFileId (Source.new 7 mainFileId [0x61])
    [0x61] [0x62] [0x62] (.notFound "m") 8 9 (by decide) (by decide)

/-- Claim C7 counterexample: `free_compile_result` does not check each
warning message for null — on a result whose warnings array is non-null but
contains one warning with a null message pointer, it hands that null
pointer to `CString::from_raw` (one null dereference in the trace),
refuting "each warning message is freed only when its pointer is
non-null". -/
theorem free_result_null_message_deref_cx :
    (free_compile_result
      { buffers := none, buffers_len := 0,
        warnings := some [{ message := none }], warnings_len := 1,
        error := none }).nullDerefs = 1 := by
  decide

/-- Claim C7 amended: the three top-level fields are null-guarded — on a
result with null buffer and warning arrays (the error path)
`free_compile_result` dereferences no null pointer, frees neither array nor
any buffer or warning message, and frees the error string exactly when it
is non-null; but individual buffer pointers and warning messages inside a
non-null array are freed unconditionally, without a per-element null
check. -/
theorem free_result_guards (r : CompileResultC)
    (hb : r.buffers = none) (hw : r.warnings = none) :
    free_compile_result r = { FreeTrace.empty with freedError := r.error.isSome } := by
  cases r with
  | mk b bl w wl err =>
    simp only [CompileResultC.buffers] at hb
    simp only [CompileResultC.warnings] at hw
    subst hb
    subst hw
    cases err <;> rfl

/-- Witness for C7 at the concrete error-path result `compile` produces on
failure. -/
theorem free_result_guards_witness :
    free_compile_result
      { buffers := none, buffers_len := 0, warnings := none, warnings_len := 0,
        error := some "boom" }
      = { FreeTrace.empty with freedError := true } :=
  free_result_guards
    { buffers := none, buffers_len := 0, warnings := none, warnings_len := 0,
      error := some "boom" } rfl rfl

/-- A clock value whose local month component is deliberately outside the
`u8` range, used to exercise the `None` branch of `today`. -/
def overflowClock : DateTimeL :=
  { localDate := { year := 2024, month := 300, day := 1 },
    utcPlusHours := fun _ => { year := 2024, month := 300, day := 1 } }

/-- A clock value whose local day component is outside the `u8` range. -/
def overflowDayClock : DateTimeL :=
  { localDate := { year := 2024, month := 1, day := 999 },
    utcPlusHours := fun _ => { year := 2024, month := 1, day := 999 } }

/-- A clock value whose local month fits `u8` but is not a representable
calendar month (`Datetime::from_ymd` rejects it). -/
def badMonthClock : DateTimeL :=
  { localDate := { year := 2024, month := 13, day := 1 },
    utcPlusHours := fun _ => { year := 2024, month := 13, day := 1 } }

/-- Claim C8: `today` captures the wall clock at most once. First conjunct:
a second call with the same offset on the store left by the first call
returns the same result, whatever the clock reads at either instant.
Second conjunct: after any call the captured instant is the previously
captured one if present, otherwise the first call's clock — so the capture
happens at most once, on first call. Third conjunct: the result is `None`
whenever the derived day or month value cannot be represented in the
calendar type — the month or the day overflows the `u8` component type
(`try_into().ok()?`), or `Datetime::from_ymd` rejects the components as an
unrepresentable date. -/
theorem today_single_capture_deterministic (w : SystemWorld) (offset : Option Int)
    (c1 c2 : DateTimeL) :
    ((w.today offset c1).2.today offset c2).1 = (w.today offset c1).1
    ∧ (w.today offset c1).2.now = some (w.now.getD c1)
    ∧ (255 < (todayNaive (w.now.getD c1) offset).month
        ∨ 255 < (todayNaive (w.now.getD c1) offset).day
        ∨ datetime_from_ymd (todayNaive (w.now.getD c1) offset).year
            (todayNaive (w.now.getD c1) offset).month
            (todayNaive (w.now.getD c1) offset).day = none
       → (w.today offset c1).1 = none) := by
  refine ⟨?_, ?_, ?_⟩
  · simp [SystemWorld.today]
  · simp [SystemWorld.today]
  · intro h
    by_cases hm : (todayNaive (w.now.getD c1) offset).month ≤ 255
    · by_cases hd : (todayNaive (w.now.getD c1) offset).day ≤ 255
      · rcases h with h | h | h
        · omega
        · omega
        · simp [SystemWorld.today, tryIntoU8, hm, hd, h]
      · simp [SystemWorld.today, tryIntoU8, hm, hd]
    · simp [SystemWorld.today, tryIntoU8, hm]

/-- Witness for C8: a fresh store queried with a clock whose local month
overflows `u8` yields `None` and satisfies the determinism conjunct; the
day-overflow and unrepresentable-month (13) cases also yield `None`. -/
theorem today_single_capture_witness :
    (((SystemWorld.new "." [] []).today none overflowClock).2.today none overflowClock).1
      = ((SystemWorld.new "." [] []).today none overflowClock).1
    ∧ ((SystemWorld.new "." [] []).today none overflowClock).1 = none
    ∧ ((SystemWorld.new "." [] []).today none overflowDayClock).1 = none
    ∧ ((SystemWorld.new "." [] []).today none badMonthClock).1 = none :=
  ⟨(today_single_capture_deterministic (SystemWorld.new "." [] []) none overflowClock
      overflowClock).1,
   (today_single_capture_deterministic (SystemWorld.new "." [] []) none overflowClock
      overflowClock).2.2 (by decide),
   (today_single_capture_deterministic (SystemWorld.new "." [] []) none overflowDayClock
      overflowDayClock).2.2 (by decide),
   (today_single_capture_deterministic (SystemWorld.new "." [] []) none badMonthClock
      badMonthClock).2.2 (by decide)⟩
